import Mathlib

/-!
Shallow embedding of the foodgram backend core (Django REST app):
data model from recipes/models.py and users/models.py, operations from
api/serializers.py and api/views.py.  Database tables are lists of rows;
primary keys are natural numbers.  Each HTTP action becomes a function
returning an `Except` for the response outcome, paired with the post-state
of the database where the action can write.
-/

namespace Foodgram

/-- Row of recipes.models.Tag (only the fields the API core reads). -/
structure Tag where
  id : Nat
  name : String
  slug : String
deriving DecidableEq

/-- Row of recipes.models.Ingredient. -/
structure Ingredient where
  id : Nat
  name : String
  measurement_unit : String
deriving DecidableEq

/-- Row of recipes.models.Recipe; the many-to-many tag set is kept inline
as the list of tag ids, ingredient lines live in their own table. -/
structure Recipe where
  id : Nat
  author : Nat
  name : String
  image : String
  text : String
  cooking_time : Nat
  tags : List Nat
deriving DecidableEq

/-- Row of recipes.models.IngredientInRecipe. -/
structure LineRow where
  recipe : Nat
  ingredient : Nat
  amount : Nat
deriving DecidableEq

/-- Row of recipes.models.Favorite. -/
structure FavoriteRow where
  user : Nat
  recipe : Nat
deriving DecidableEq

/-- Row of recipes.models.ShoppingCart. -/
structure CartRow where
  user : Nat
  recipe : Nat
deriving DecidableEq

/-- Row of users.models.Follow. -/
structure FollowRow where
  user : Nat
  following : Nat
deriving DecidableEq

/-- Row of users.models.User (fields the follow projection reads). -/
structure UserRow where
  id : Nat
  username : String
deriving DecidableEq

/-- The relational state the API operations read and write. -/
structure DB where
  users : List UserRow
  tags : List Tag
  ingredients : List Ingredient
  recipes : List Recipe
  lines : List LineRow
  favorites : List FavoriteRow
  carts : List CartRow
  follows : List FollowRow
deriving DecidableEq

/-- The compact recipe projection of api.serializers.RecipeCompactSerializer. -/
structure RecipeCompact where
  id : Nat
  name : String
  image : String
  cooking_time : Nat
deriving DecidableEq

/-- RecipeCompactSerializer applied to one recipe. -/
def compactOf (r : Recipe) : RecipeCompact :=
  ⟨r.id, r.name, r.image, r.cooking_time⟩

/-- Python truthiness of an optional query-parameter string:
absent and empty are falsy, anything else truthy. -/
def truthy : Option String → Bool
  | none => false
  | some s => !s.isEmpty

/-! ## Shopping list (RecipeViewSet.download_shopping_cart, views.py) -/

/-- ShoppingCart rows of one user: the queryset
`ShoppingCart.objects.filter(user=u)` (equivalently, the rows the working
reverse query name `shoppingcart__user` of filters.py denotes). -/
def cartRows (db : DB) (u : Nat) : List CartRow :=
  db.carts.filter (fun c => c.user == u)

/-- Ingredient lines of the recipes in the user's cart: the relational
join the spec's shopping-list aggregation reads. -/
def cartLines (db : DB) (u : Nat) : List LineRow :=
  db.lines.filter (fun l => (cartRows db u).any (fun c => c.recipe == l.recipe))

/-- The join of a cart line to its Ingredient row, projected to
(name, measurement_unit, amount). -/
def joinRows (db : DB) (u : Nat) : List (String × String × Nat) :=
  (cartLines db u).filterMap (fun l =>
    (db.ingredients.find? (fun i => i.id == l.ingredient)).map
      (fun i => (i.name, i.measurement_unit, l.amount)))

/-- Grouping key of a joined row: (ingredient name, measurement unit). -/
def keyOf (row : String × String × Nat) : String × String :=
  (row.1, row.2.1)

/-- Distinct grouping keys in first-encountered order (the spec's
group-emission order). -/
def groupKeys (rows : List (String × String × Nat)) : List (String × String) :=
  ((rows.map keyOf).reverse.dedup).reverse

/-- Sum of the amounts of the rows in one group. -/
def amountSum (rows : List (String × String × Nat)) (k : String × String) : Nat :=
  ((rows.filter (fun row => keyOf row == k)).map (fun row => row.2.2)).sum

/-- The grouped aggregation, one (name, unit, total) per group. -/
def aggregateCart (db : DB) (u : Nat) : List (String × String × Nat) :=
  (groupKeys (joinRows db u)).map (fun k => (k.1, k.2, amountSum (joinRows db u) k))

/-- One plain-text line of the shopping list. -/
def renderLine (row : String × String × Nat) : String :=
  "- " ++ row.1 ++ " (" ++ row.2.1 ++ ") - " ++ toString row.2.2

/-- The buildShoppingList operation as the spec describes it (its §4.4),
stated from the spec's words for comparison with the code: collect the
user's cart rows, fail on an empty cart with the nothing-to-export
condition, else join the cart recipes' ingredient lines, group by
(name, measurement unit), sum each group, and render one line per group. -/
def buildShoppingList (db : DB) (u : Nat) : Except String String :=
  if (cartRows db u).isEmpty then Except.error "nothing to export"
  else Except.ok (String.intercalate "\n" ((aggregateCart db u).map renderLine))

/-- views.RecipeViewSet.download_shopping_cart, faithful to the models in
src: ShoppingCart inherits its foreign keys from the abstract BaseItem,
which sets no related_name, so the reverse accessor on User is
shoppingcart_set and the reverse query name is shoppingcart — the default
names admin.py (favorite_set) and filters.py (shoppingcart__user) use.
The view's first statement, `user.shopping_cart.exists()`, therefore
raises AttributeError on every request, before the empty-cart guard and
before the aggregation query (whose `recipe__shopping_cart__user` lookup
would itself be a FieldError): the endpoint always fails server-side. -/
def download_shopping_cart (_db : DB) (_u : Nat) : Except String String :=
  Except.error "AttributeError: User object has no attribute shopping_cart"

/-! ## Recipe listing (RecipeViewSet.list / get_queryset, views.py) -/

/-- Query parameters consumed by the recipe list endpoint. -/
structure ListParams where
  author : Option Nat
  tags : List String
  is_in_shopping_cart : Option String
  is_favorited : Option String
deriving DecidableEq

/-- Slug of the tag row a recipe-tag id resolves to. -/
def tagSlugOf (db : DB) (tid : Nat) : Option String :=
  (db.tags.find? (fun t => t.id == tid)).map (fun t => t.slug)

/-- Tag ids of a recipe whose slug is among the requested slugs:
one SQL join row per matching tag. -/
def matchingTagRows (db : DB) (r : Recipe) (slugs : List String) : List Nat :=
  r.tags.filter (fun tid =>
    match tagSlugOf db tid with
    | some s => slugs.contains s
    | none => false)

/-- The `tags__slug__in` join: each recipe repeated once per matching tag. -/
def tagJoin (db : DB) (q : List Recipe) (slugs : List String) : List Recipe :=
  q.flatMap (fun r => (matchingTagRows db r slugs).map (fun _ => r))

/-- Does a Favorite row exist for (viewer, recipe)? -/
def favExists (db : DB) (u : Nat) (rid : Nat) : Bool :=
  db.favorites.any (fun f => f.user == u && f.recipe == rid)

/-- Does a ShoppingCart row exist for (viewer, recipe)? -/
def cartExists (db : DB) (u : Nat) (rid : Nat) : Bool :=
  db.carts.any (fun c => c.user == u && c.recipe == rid)

/-- views.RecipeViewSet.get_queryset: author filter, any-of tag join,
anonymous guard returning the empty queryset, the two viewer-relative
Exists filters, then `.distinct()`. -/
def get_queryset (db : DB) (viewer : Option Nat) (p : ListParams) : List Recipe :=
  let q := db.recipes
  let q := match p.author with
    | some a => q.filter (fun r => r.author == a)
    | none => q
  let q := if p.tags.isEmpty then q else tagJoin db q p.tags
  if (truthy p.is_in_shopping_cart || truthy p.is_favorited) && viewer.isNone then []
  else
    let q := match viewer, p.is_in_shopping_cart with
      | some u, some v =>
        if !v.isEmpty then
          if v == "1" then q.filter (fun (r : Recipe) => cartExists db u r.id)
          else q.filter (fun (r : Recipe) => !cartExists db u r.id)
        else q
      | _, _ => q
    let q := match viewer, p.is_favorited with
      | some u, some v =>
        if !v.isEmpty then
          if v == "1" then q.filter (fun (r : Recipe) => favExists db u r.id)
          else q.filter (fun (r : Recipe) => !favExists db u r.id)
        else q
      | _, _ => q
    q.dedup

/-- views.RecipeViewSet.list: 401 when a viewer-relative filter is requested
by an unauthenticated viewer, otherwise the filtered queryset. -/
def list_recipes (db : DB) (viewer : Option Nat) (p : ListParams) :
    Except String (List Recipe) :=
  if (truthy p.is_in_shopping_cart || truthy p.is_favorited) && viewer.isNone then
    Except.error "Authentication credentials were not provided."
  else Except.ok (get_queryset db viewer p)

/-! ## Recipe write path (RecipeCreateSerializer, serializers.py) -/

/-- One payload entry of the nested `ingredients` field (id, amount). -/
structure LineInput where
  id : Nat
  amount : Int
deriving DecidableEq

/-- Duplicate-tag scan of RecipeCreateSerializer.validate_tags: the Python
loop keeps a set of already-seen tags and records a `not_unique` error key. -/
def tagDupErrors : List Nat → List Nat → List String
  | [], _ => []
  | t :: rest, seen =>
    (if t ∈ seen then ["not_unique"] else []) ++ tagDupErrors rest (t :: seen)

/-- RecipeCreateSerializer.validate_tags: error keys collected over the
tag list; the serializer raises exactly when this list is non-empty. -/
def validate_tags (value : List Nat) : List String :=
  (if value.isEmpty then ["no_tags"] else []) ++ tagDupErrors value []

/-- Existence check of the `PrimaryKeyRelatedField(queryset=Tag...)` field:
every tag id in the payload must be a Tag row's pk. -/
def tagFieldErrors (tagIds : List Nat) (value : List Nat) : List String :=
  if value.all (fun t => tagIds.contains t) then [] else ["does_not_exist"]

/-- Loop body of RecipeCreateSerializer.validate_ingredients: existence of
each ingredient id, duplicate detection against the seen set (Django model
equality is pk equality), and the positive-amount check. -/
def ingredientItemErrors (ingIds : List Nat) :
    List LineInput → List Nat → List String
  | [], _ => []
  | item :: rest, seen =>
    if item.id ∈ ingIds then
      ((if item.id ∈ seen then ["duplicate_found"] else []) ++
        (if item.amount ≤ 0 then ["amount"] else [])) ++
      ingredientItemErrors ingIds rest (item.id :: seen)
    else
      "non_existent_ingredients" :: ingredientItemErrors ingIds rest seen

/-- RecipeCreateSerializer.validate_ingredients: error keys collected over
the payload lines; the serializer raises exactly when non-empty. -/
def validate_ingredients (ingIds : List Nat) (value : List LineInput) :
    List String :=
  (if value.isEmpty then ["no_ingredients"] else []) ++
    ingredientItemErrors ingIds value []

/-- The model validators on Recipe.cooking_time (1..32767). -/
def cookingTimeErrors (ct : Nat) : List String :=
  if 1 ≤ ct && ct ≤ 32767 then [] else ["cooking_time"]

/-- RecipeCreateSerializer.fill_amount: one IngredientInRecipe row per
payload line, bulk-created for the given recipe. -/
def fill_amount (rid : Nat) (ingredients : List LineInput) : List LineRow :=
  ingredients.map (fun it => ⟨rid, it.id, it.amount.toNat⟩)

/-- Payload of a recipe creation request (all writable fields present). -/
structure CreatePayload where
  name : String
  image : String
  text : String
  cooking_time : Nat
  tags : List Nat
  ingredients : List LineInput
deriving DecidableEq

/-- The field-keyed error set collected by `serializer.is_valid()` on a
creation payload (field validators run per field, errors reported together). -/
def createIsValidErrors (db : DB) (p : CreatePayload) : List String :=
  validate_ingredients (db.ingredients.map (fun i => i.id)) p.ingredients ++
    tagFieldErrors (db.tags.map (fun t => t.id)) p.tags ++
    validate_tags p.tags ++
    cookingTimeErrors p.cooking_time

/-- A fresh primary key for a new Recipe row. -/
def newRecipeId (db : DB) : Nat :=
  db.recipes.foldl (fun m r => max m r.id) 0 + 1

/-- The recipe creation endpoint: `is_valid(raise_exception=True)` then
RecipeCreateSerializer.create (Recipe row, tags.set, fill_amount). -/
def create_recipe (db : DB) (author : Nat) (p : CreatePayload) :
    (Except String Nat) × DB :=
  let errs := createIsValidErrors db p
  if errs.isEmpty then
    let rid := newRecipeId db
    let r : Recipe := ⟨rid, author, p.name, p.image, p.text, p.cooking_time, p.tags⟩
    (Except.ok rid,
      { db with
        recipes := db.recipes ++ [r],
        lines := db.lines ++ fill_amount rid p.ingredients })
  else (Except.error (String.intercalate "; " errs), db)

/-- Payload of a partial (PATCH) recipe update: absent fields are `none`. -/
structure UpdatePayload where
  name : Option String
  image : Option String
  text : Option String
  cooking_time : Option Nat
  tags : Option (List Nat)
  ingredients : Option (List LineInput)
deriving DecidableEq

/-- `serializer.is_valid()` on a partial update payload: each field
validator runs only when its field is present. -/
def updateIsValidErrors (db : DB) (p : UpdatePayload) : List String :=
  (match p.ingredients with
    | some v => validate_ingredients (db.ingredients.map (fun i => i.id)) v
    | none => []) ++
  (match p.tags with
    | some v => tagFieldErrors (db.tags.map (fun t => t.id)) v ++ validate_tags v
    | none => []) ++
  (match p.cooking_time with
    | some ct => cookingTimeErrors ct
    | none => [])

/-- `super().update(instance, validated_data)`: set the provided scalar
fields on the instance (author immutable, tag/line fields already popped). -/
def applyScalars (r : Recipe) (p : UpdatePayload) : Recipe :=
  { r with
    name := p.name.getD r.name,
    image := p.image.getD r.image,
    text := p.text.getD r.text,
    cooking_time := p.cooking_time.getD r.cooking_time }

/-- Persist a recipe row by primary key. -/
def saveRecipe (db : DB) (rnew : Recipe) : DB :=
  { db with recipes := db.recipes.map (fun r => if r.id == rnew.id then rnew else r) }

/-- Replace the tag set of one recipe (`instance.tags.set(tags)`). -/
def setRecipeTags (db : DB) (rid : Nat) (tgl : List Nat) : DB :=
  { db with recipes := db.recipes.map (fun r => if r.id == rid then { r with tags := tgl } else r) }

/-- RecipeCreateSerializer.update, step for step: pop ingredients/tags,
run `super().update` (scalar save), raise when ingredients or tags are
missing or empty, else clear the lines, refill them, and set the tags. -/
def serializer_update (db : DB) (r : Recipe) (p : UpdatePayload) :
    Except String DB :=
  let db1 := saveRecipe db (applyScalars r p)
  match p.ingredients with
  | none => Except.error "ingredients required for update"
  | some ingl =>
    if ingl.isEmpty then Except.error "ingredients required for update"
    else
      match p.tags with
      | none => Except.error "tags required for update"
      | some tgl =>
        if tgl.isEmpty then Except.error "tags required for update"
        else
          let db2 := { db1 with lines := db1.lines.filter (fun l => l.recipe != r.id) }
          let db3 := { db2 with lines := db2.lines ++ fill_amount r.id ingl }
          Except.ok (setRecipeTags db3 r.id tgl)

/-- Modelled from the spec: the transactional wrapper around a recipe
write is project configuration that is not among the API sources; per the
spec the multi-row recipe update is one transaction and no partial write
is ever committed, so a raised validation error rolls the state back. -/
def runTransaction (db : DB) : Except String DB → (Except String Unit) × DB
  | Except.ok dbnew => (Except.ok (), dbnew)
  | Except.error e => (Except.error e, db)

/-- The recipe update endpoint (PATCH): resolve the instance, run
`is_valid`, then RecipeCreateSerializer.update inside the transaction. -/
def update_recipe (db : DB) (rid : Nat) (p : UpdatePayload) :
    (Except String Unit) × DB :=
  match db.recipes.find? (fun r => r.id == rid) with
  | none => (Except.error "not found", db)
  | some r =>
    let errs := updateIsValidErrors db p
    if errs.isEmpty then runTransaction db (serializer_update db r p)
    else (Except.error (String.intercalate "; " errs), db)

/-! ## Engagement toggles (RecipeViewSet.favorite, views.py) -/

/-- Number of Favorite rows for one (user, recipe) pair. -/
def favCount (db : DB) (u rid : Nat) : Nat :=
  (db.favorites.filter (fun f => f.user == u && f.recipe == rid)).length

/-- POST branch of RecipeViewSet.favorite: resolve the recipe
(get_object_or_400), reject when the pair already exists, else create the
row and return the compact projection. -/
def favorite_post (db : DB) (u : Nat) (pk : Nat) :
    (Except String RecipeCompact) × DB :=
  match db.recipes.find? (fun r => r.id == pk) with
  | none => (Except.error "does not exist", db)
  | some r =>
    if favExists db u pk then (Except.error "already in favorites", db)
    else
      (Except.ok (compactOf r),
        { db with favorites := db.favorites ++ [⟨u, pk⟩] })

/-! ## Follow (CustomUserViewSet.subscribe / subscriptions, views.py;
FollowSerializer, serializers.py) -/

/-- The FollowSerializer output shape (fields the claims inspect). -/
structure FollowOut where
  id : Nat
  username : String
  is_subscribed : Bool
  recipes : List RecipeCompact
  recipes_count : Nat
deriving DecidableEq

/-- Recipes authored by one user (`obj.recipes`). -/
def recipesOfAuthor (db : DB) (uid : Nat) : List Recipe :=
  db.recipes.filter (fun r => r.author == uid)

/-- FollowSerializer rendering of one user: `get_is_subscribed` returns
the constant True, recipes are capped by `recipes_limit`. -/
def followProjection (db : DB) (target : UserRow) (recipes_limit : Option Nat) :
    FollowOut :=
  let rs := recipesOfAuthor db target.id
  let capped := match recipes_limit with
    | some n => rs.take n
    | none => rs
  ⟨target.id, target.username, true, capped.map compactOf, rs.length⟩

/-- FollowSerializer.validate: `re_sub` when the edge exists, `self_sub`
when the viewer equals the target; raises when any error was collected. -/
def followValidateErrors (db : DB) (u : Nat) (followingId : Nat) : List String :=
  (if db.follows.any (fun f => f.user == u && f.following == followingId)
    then ["re_sub"] else []) ++
  (if u == followingId then ["self_sub"] else [])

/-- POST branch of CustomUserViewSet.subscribe: resolve the target user,
validate, create the edge, and answer with the FollowSerializer data. -/
def subscribe_post (db : DB) (u : Nat) (targetId : Nat)
    (recipes_limit : Option Nat) : (Except String FollowOut) × DB :=
  match db.users.find? (fun x => x.id == targetId) with
  | none => (Except.error "not found", db)
  | some following =>
    let errs := followValidateErrors db u following.id
    if errs.isEmpty then
      (Except.ok (followProjection db following recipes_limit),
        { db with follows := db.follows ++ [⟨u, following.id⟩] })
    else (Except.error (String.intercalate "; " errs), db)

/-- CustomUserViewSet.subscriptions: users the viewer follows
(`User.objects.filter(following__user=viewer)`), each rendered through
FollowSerializer. -/
def listFollowing (db : DB) (u : Nat) (recipes_limit : Option Nat) :
    List FollowOut :=
  (db.users.filter (fun x => db.follows.any (fun f => f.following == x.id && f.user == u))).map
    (fun x => followProjection db x recipes_limit)

/-- A small concrete database used to evaluate the theorems on concrete
inputs: two users, two tags, two ingredients, two recipes, the cart of
user 1 holding both recipes. -/
def sampleDB : DB :=
  { users := [⟨1, "alice"⟩, ⟨2, "bob"⟩],
    tags := [⟨1, "b", "breakfast"⟩, ⟨2, "v", "vegan"⟩],
    ingredients := [⟨1, "flour", "g"⟩, ⟨2, "egg", "pcs"⟩],
    recipes := [⟨1, 2, "R1", "img", "t1", 10, [1]⟩, ⟨2, 2, "R2", "img", "t2", 20, [1, 2]⟩],
    lines := [⟨1, 1, 200⟩, ⟨2, 1, 300⟩, ⟨2, 2, 2⟩],
    favorites := [],
    carts := [⟨1, 1⟩, ⟨1, 2⟩],
    follows := [] }

/-! ## Theorems -/

/-- Claim C4: for every request carrying a viewer-relative filter
(`is_favorited` or `is_in_shopping_cart` with a truthy value) made by an
unauthenticated viewer, the list endpoint answers with the authentication
error — the one policy the implementation chose, applied to every such
request. -/
theorem anon_viewer_filter_auth_error (db : DB) (p : ListParams)
    (h : truthy p.is_favorited = true ∨ truthy p.is_in_shopping_cart = true) :
    list_recipes db none p =
      Except.error "Authentication credentials were not provided." := by
  unfold list_recipes
  rcases h with h | h <;> simp [h]

theorem anon_viewer_filter_auth_error_witness :
    (truthy (some "1") = true ∨ truthy none = true) ∧
      list_recipes sampleDB none ⟨none, [], none, some "1"⟩ =
        Except.error "Authentication credentials were not provided." :=
  ⟨Or.inl (by decide),
    anon_viewer_filter_auth_error sampleDB ⟨none, [], none, some "1"⟩
      (Or.inl (by decide))⟩

/-- Claim C7 (code bug): the export endpoint never surfaces the
nothing-to-export condition the claim requires for an empty cart — under
the src models the `user.shopping_cart` accessor does not exist, so every
request, empty cart or not, fails with the AttributeError server error
before the guard runs; the spec-side buildShoppingList shows the answer
the claim required at the concrete empty-cart input. -/
theorem download_shopping_cart_never_nothing_to_export :
    (∀ (db : DB) (u : Nat), download_shopping_cart db u =
      Except.error "AttributeError: User object has no attribute shopping_cart") ∧
    cartRows sampleDB 2 = [] ∧
    buildShoppingList sampleDB 2 = Except.error "nothing to export" :=
  ⟨fun _ _ => rfl, by decide, by rfl⟩

/-- Claim C9: every output of the follow projection — the subscribe
response and every entry of the subscriptions listing — carries
`is_subscribed = true`, the constant returned by
FollowSerializer.get_is_subscribed, for every state of the Follow table. -/
theorem follow_projection_is_subscribed_const (db : DB) (u t : Nat)
    (lim : Option Nat) :
    ((listFollowing db u lim).all (fun o => o.is_subscribed)) = true ∧
      (((subscribe_post db u t lim).1.toOption.map
        (fun o => o.is_subscribed)).getD true) = true := by
  constructor
  · rw [List.all_eq_true]
    intro o ho
    simp only [listFollowing, List.mem_map] at ho
    obtain ⟨x, hx, rfl⟩ := ho
    rfl
  · unfold subscribe_post
    cases h : db.users.find? (fun x => x.id == t) with
    | none => simp [Except.toOption]
    | some fo =>
      by_cases he : (followValidateErrors db u fo.id).isEmpty <;>
        simp [he, followProjection, Except.toOption]

/-- Claim C8: subscribing to oneself always fails the serializer
validation (`self_sub`), whatever the prior Follow state, and no edge is
created. -/
theorem follow_self_rejected (db : DB) (u : Nat) (x : UserRow)
    (hx : db.users.find? (fun y => y.id == u) = some x) :
    (∃ e, (subscribe_post db u u none).1 = Except.error e) ∧
      (subscribe_post db u u none).2 = db := by
  have hid : x.id = u := by
    have hp := List.find?_some hx
    simpa using hp
  have herr : (followValidateErrors db u x.id).isEmpty = false := by
    simp [followValidateErrors, hid]
  unfold subscribe_post
  rw [hx]
  simp [herr]

theorem follow_self_rejected_witness :
    sampleDB.users.find? (fun y => y.id == 1) = some ⟨1, "alice"⟩ ∧
      (∃ e, (subscribe_post sampleDB 1 1 none).1 = Except.error e) ∧
      (subscribe_post sampleDB 1 1 none).2 = sampleDB :=
  ⟨by decide, follow_self_rejected sampleDB 1 ⟨1, "alice"⟩ (by decide)⟩

/-- Claim C10: for an authenticated viewer, any truthy value other than
"1" of the `is_favorited` (resp. `is_in_shopping_cart`) parameter acts as
a negative filter: the listing contains exactly the recipes with no
Favorite (resp. ShoppingCart) row for that viewer. -/
theorem nonone_flag_negative_filter (db : DB) (u : Nat) (v : String)
    (r : Recipe) (hv : v ≠ "") (hv1 : v ≠ "1") :
    (r ∈ get_queryset db (some u) ⟨none, [], none, some v⟩ ↔
      r ∈ db.recipes ∧ ¬ ∃ f ∈ db.favorites, f.user = u ∧ f.recipe = r.id) ∧
    (r ∈ get_queryset db (some u) ⟨none, [], some v, none⟩ ↔
      r ∈ db.recipes ∧ ¬ ∃ c ∈ db.carts, c.user = u ∧ c.recipe = r.id) := by
  have h1 : v.isEmpty = false := by
    cases hb : v.isEmpty
    · rfl
    · exact absurd (by simpa [String.isEmpty_iff] using hb) hv
  have h2 : (v == "1") = false := by
    cases hb : v == "1"
    · rfl
    · exact absurd (by simpa using hb) hv1
  constructor
  · unfold get_queryset
    simp [truthy, h1, h2, List.mem_dedup, List.mem_filter, favExists,
      List.any_eq_true, not_exists]
  · unfold get_queryset
    simp [truthy, h1, h2, List.mem_dedup, List.mem_filter, cartExists,
      List.any_eq_true, not_exists]

theorem nonone_flag_negative_filter_witness :
    ("0" ≠ "" ∧ "0" ≠ "1") ∧
      ((⟨1, 2, "R1", "img", "t1", 10, [1]⟩ ∈
          get_queryset sampleDB (some 1) ⟨none, [], none, some "0"⟩ ↔
        (⟨1, 2, "R1", "img", "t1", 10, [1]⟩ : Recipe) ∈ sampleDB.recipes ∧
          ¬ ∃ f ∈ sampleDB.favorites, f.user = 1 ∧ f.recipe = 1) ∧
       (⟨1, 2, "R1", "img", "t1", 10, [1]⟩ ∈
          get_queryset sampleDB (some 1) ⟨none, [], some "0", none⟩ ↔
        (⟨1, 2, "R1", "img", "t1", 10, [1]⟩ : Recipe) ∈ sampleDB.recipes ∧
          ¬ ∃ c ∈ sampleDB.carts, c.user = 1 ∧ c.recipe = 1)) :=
  ⟨⟨by decide, by decide⟩,
    nonone_flag_negative_filter sampleDB 1 "0" ⟨1, 2, "R1", "img", "t1", 10, [1]⟩
      (by decide) (by decide)⟩

/-- The Favorite existence check answers true exactly when the pair's row
count is positive. -/
lemma favExists_iff_pos (db : DB) (u rid : Nat) :
    favExists db u rid = true ↔ 0 < favCount db u rid := by
  simp [favExists, favCount, List.any_eq_true, List.length_pos,
    ← List.countP_eq_length_filter, List.countP_pos_iff]

/-- Claim C6: adding a favorite is idempotent-rejecting — for a pair with
no Favorite row, the first call creates the row and returns the compact
projection, the count becomes 1, and the call on the resulting state fails
with an error while leaving the state (hence the count) untouched. -/
theorem addFavorite_idempotent_rejecting (db : DB) (u pk : Nat) (r : Recipe)
    (hr : db.recipes.find? (fun x => x.id == pk) = some r)
    (h0 : favCount db u pk = 0) :
    (favorite_post db u pk).1 = Except.ok (compactOf r) ∧
      favCount (favorite_post db u pk).2 u pk = 1 ∧
      (∃ e, (favorite_post (favorite_post db u pk).2 u pk).1 = Except.error e) ∧
      (favorite_post (favorite_post db u pk).2 u pk).2 = (favorite_post db u pk).2 := by
  have hfe : favExists db u pk = false := by
    cases hb : favExists db u pk
    · rfl
    · have := (favExists_iff_pos db u pk).mp hb
      omega
  have h0len : (db.favorites.filter (fun f => f.user == u && f.recipe == pk)).length = 0 := h0
  have hstep : favorite_post db u pk =
      (Except.ok (compactOf r), { db with favorites := db.favorites ++ [⟨u, pk⟩] }) := by
    unfold favorite_post
    rw [hr]
    simp [hfe]
  have hcount1 : favCount { db with favorites := db.favorites ++ [⟨u, pk⟩] } u pk = 1 := by
    simp [favCount, List.filter_append, h0len]
  have hfe2 : favExists { db with favorites := db.favorites ++ [⟨u, pk⟩] } u pk = true := by
    rw [favExists_iff_pos, hcount1]
    omega
  refine ⟨by rw [hstep], by rw [hstep]; exact hcount1, ?_, ?_⟩
  · rw [hstep]
    unfold favorite_post
    rw [show ({ db with favorites := db.favorites ++ [⟨u, pk⟩] } : DB).recipes = db.recipes from rfl, hr]
    simp [hfe2]
  · rw [hstep]
    unfold favorite_post
    rw [show ({ db with favorites := db.favorites ++ [⟨u, pk⟩] } : DB).recipes = db.recipes from rfl, hr]
    simp [hfe2]

theorem addFavorite_idempotent_rejecting_witness :
    (sampleDB.recipes.find? (fun x => x.id == 1) =
        some ⟨1, 2, "R1", "img", "t1", 10, [1]⟩ ∧ favCount sampleDB 1 1 = 0) ∧
      ((favorite_post sampleDB 1 1).1 =
          Except.ok (compactOf ⟨1, 2, "R1", "img", "t1", 10, [1]⟩) ∧
        favCount (favorite_post sampleDB 1 1).2 1 1 = 1 ∧
        (∃ e, (favorite_post (favorite_post sampleDB 1 1).2 1 1).1 = Except.error e) ∧
        (favorite_post (favorite_post sampleDB 1 1).2 1 1).2 =
          (favorite_post sampleDB 1 1).2) :=
  ⟨⟨by decide, by decide⟩,
    addFavorite_idempotent_rejecting sampleDB 1 1 ⟨1, 2, "R1", "img", "t1", 10, [1]⟩
      (by decide) (by decide)⟩

/-- Membership in the tag join: a recipe row appears iff it is in the base
queryset and has at least one matching join row. -/
lemma mem_tagJoin (db : DB) (q : List Recipe) (slugs : List String) (r : Recipe) :
    r ∈ tagJoin db q slugs ↔ r ∈ q ∧ matchingTagRows db r slugs ≠ [] := by
  simp only [tagJoin, List.mem_flatMap, List.mem_map]
  constructor
  · rintro ⟨a, ha, x, hx, rfl⟩
    exact ⟨ha, List.ne_nil_of_mem hx⟩
  · rintro ⟨hq, hne⟩
    obtain ⟨x, hx⟩ := List.exists_mem_of_ne_nil _ hne
    exact ⟨r, hq, x, hx, rfl⟩

/-- The per-tag slug test of the join succeeds exactly when some Tag row
carries the id and one of the requested slugs (tag primary keys unique). -/
lemma tagPred_iff (db : DB) (tid : Nat) (slugs : List String)
    (hids : (db.tags.map Tag.id).Nodup) :
    ((match tagSlugOf db tid with
      | some s => slugs.contains s
      | none => false) = true) ↔
      ∃ t ∈ db.tags, t.id = tid ∧ t.slug ∈ slugs := by
  cases hfind : db.tags.find? (fun t => t.id == tid) with
  | none =>
    have hts : tagSlugOf db tid = none := by simp [tagSlugOf, hfind]
    rw [hts]
    simp only [Bool.false_eq_true, false_iff]
    rintro ⟨t, ht, htid, hslug⟩
    have := List.find?_eq_none.mp hfind t ht
    simp [htid] at this
  | some t0 =>
    have ht0mem : t0 ∈ db.tags := List.mem_of_find?_eq_some hfind
    have ht0id : t0.id = tid := by simpa using List.find?_some hfind
    have hts : tagSlugOf db tid = some t0.slug := by simp [tagSlugOf, hfind]
    rw [hts]
    show slugs.contains t0.slug = true ↔ _
    rw [show slugs.contains t0.slug = slugs.elem t0.slug from rfl, List.elem_iff]
    constructor
    · intro h
      exact ⟨t0, ht0mem, ht0id, h⟩
    · rintro ⟨t, htmem, htid, hslug⟩
      have heq : t = t0 :=
        List.inj_on_of_nodup_map hids htmem ht0mem (by rw [htid, ht0id])
      exact heq ▸ hslug

/-- A recipe has a matching join row iff one of its tags resolves to a Tag
row with a requested slug. -/
lemma matchingTagRows_ne_nil_iff (db : DB) (r : Recipe) (slugs : List String)
    (hids : (db.tags.map Tag.id).Nodup) :
    matchingTagRows db r slugs ≠ [] ↔
      ∃ tid ∈ r.tags, ∃ t ∈ db.tags, t.id = tid ∧ t.slug ∈ slugs := by
  unfold matchingTagRows
  constructor
  · intro h
    obtain ⟨x, hx⟩ := List.exists_mem_of_ne_nil _ h
    rw [List.mem_filter] at hx
    exact ⟨x, hx.1, (tagPred_iff db x slugs hids).mp hx.2⟩
  · rintro ⟨tid, htid, hx⟩ hnil
    have := List.filter_eq_nil_iff.mp hnil tid htid
    exact this ((tagPred_iff db tid slugs hids).mpr hx)

/-- Claim C5: the tags filter is any-of — a recipe row is listed iff it
carries at least one requested slug — and the distinct() step leaves each
matching recipe exactly once even when several of its tags match. -/
theorem tags_filter_union_distinct (db : DB) (viewer : Option Nat)
    (slugs : List String) (r : Recipe)
    (hs : slugs ≠ []) (hids : (db.tags.map Tag.id).Nodup) :
    (r ∈ get_queryset db viewer ⟨none, slugs, none, none⟩ ↔
      r ∈ db.recipes ∧ ∃ tid ∈ r.tags, ∃ t ∈ db.tags, t.id = tid ∧ t.slug ∈ slugs) ∧
    (get_queryset db viewer ⟨none, slugs, none, none⟩).count r ≤ 1 := by
  have hsl : slugs.isEmpty = false := by simpa [List.isEmpty_iff] using hs
  have hq : get_queryset db viewer ⟨none, slugs, none, none⟩ =
      (tagJoin db db.recipes slugs).dedup := by
    unfold get_queryset
    cases viewer <;> simp [truthy, hsl]
  rw [hq]
  constructor
  · rw [List.mem_dedup, mem_tagJoin, matchingTagRows_ne_nil_iff db r slugs hids]
  · rw [List.count_dedup]
    split <;> omega

theorem tags_filter_union_distinct_witness :
    (["breakfast", "vegan"] ≠ ([] : List String) ∧
        (sampleDB.tags.map Tag.id).Nodup) ∧
      ((⟨2, 2, "R2", "img", "t2", 20, [1, 2]⟩ ∈
          get_queryset sampleDB (some 1) ⟨none, ["breakfast", "vegan"], none, none⟩ ↔
        (⟨2, 2, "R2", "img", "t2", 20, [1, 2]⟩ : Recipe) ∈ sampleDB.recipes ∧
          ∃ tid ∈ (⟨2, 2, "R2", "img", "t2", 20, [1, 2]⟩ : Recipe).tags,
            ∃ t ∈ sampleDB.tags, t.id = tid ∧ t.slug ∈ ["breakfast", "vegan"]) ∧
        (get_queryset sampleDB (some 1)
            ⟨none, ["breakfast", "vegan"], none, none⟩).count
          ⟨2, 2, "R2", "img", "t2", 20, [1, 2]⟩ ≤ 1) :=
  ⟨⟨by decide, by decide⟩,
    tags_filter_union_distinct sampleDB (some 1) ["breakfast", "vegan"]
      ⟨2, 2, "R2", "img", "t2", 20, [1, 2]⟩ (by decide) (by decide)⟩

/-- If some payload line repeats an id already in the seen set of an
existing ingredient, the validation loop reports an error. -/
lemma ingredientItemErrors_of_seen (ingIds : List Nat) :
    ∀ (value : List LineInput) (seen : List Nat) (i : Nat),
      i ∈ seen → i ∈ ingIds → (∃ it ∈ value, it.id = i) →
      ingredientItemErrors ingIds value seen ≠ [] := by
  intro value
  induction value with
  | nil =>
    intro seen i _ _ hex
    simp at hex
  | cons it rest ih =>
    intro seen i hseen hin hex
    by_cases hmem : it.id ∈ ingIds
    · simp only [ingredientItemErrors, if_pos hmem]
      rcases hex with ⟨it0, hit0, hid⟩
      rcases List.mem_cons.mp hit0 with heq | htail
      · have hdup : it.id ∈ seen := by
          rw [heq] at hid
          rw [hid]
          exact hseen
        simp [hdup]
      · have hrec : ingredientItemErrors ingIds rest (it.id :: seen) ≠ [] :=
          ih (it.id :: seen) i (List.mem_cons_of_mem _ hseen) hin ⟨it0, htail, hid⟩
        intro hcontra
        rw [List.append_eq_nil] at hcontra
        exact hrec hcontra.2
    · simp only [ingredientItemErrors, if_neg hmem]
      simp

/-- A duplicated ingredient id in the payload always makes the validation
loop report an error: a repeated existing id trips the duplicate check, a
repeated unknown id trips the existence check. -/
lemma ingredientItemErrors_of_dup (ingIds : List Nat) :
    ∀ (value : List LineInput) (seen : List Nat),
      ¬ (value.map (fun it => it.id)).Nodup →
      ingredientItemErrors ingIds value seen ≠ [] := by
  intro value
  induction value with
  | nil =>
    intro seen hnd
    simp at hnd
  | cons it rest ih =>
    intro seen hnd
    rw [List.map_cons, List.nodup_cons] at hnd
    push_neg at hnd
    by_cases hmem : it.id ∈ ingIds
    · simp only [ingredientItemErrors, if_pos hmem]
      have hrec : ingredientItemErrors ingIds rest (it.id :: seen) ≠ [] := by
        by_cases hdupid : it.id ∈ rest.map (fun x => x.id)
        · obtain ⟨it0, hit0, hid⟩ := List.mem_map.mp hdupid
          exact ingredientItemErrors_of_seen ingIds rest (it.id :: seen) it.id
            (List.mem_cons_self _ _) hmem ⟨it0, hit0, hid⟩
        · exact ih (it.id :: seen) (hnd hdupid)
      intro hcontra
      rw [List.append_eq_nil] at hcontra
      exact hrec hcontra.2
    · simp only [ingredientItemErrors, if_neg hmem]
      simp

/-- Claim C3: a creation payload repeating an ingredient id always fails
validation and creates neither a Recipe row nor any ingredient line — the
database is returned untouched. -/
theorem create_recipe_duplicate_ingredient_rejected (db : DB) (author : Nat)
    (p : CreatePayload)
    (h : ¬ (p.ingredients.map (fun it => it.id)).Nodup) :
    (∃ e, (create_recipe db author p).1 = Except.error e) ∧
      (create_recipe db author p).2 = db := by
  have hne : ingredientItemErrors (db.ingredients.map (fun i => i.id)) p.ingredients [] ≠ [] :=
    ingredientItemErrors_of_dup _ p.ingredients [] h
  have hv : createIsValidErrors db p ≠ [] := by
    intro hcontra
    unfold createIsValidErrors validate_ingredients at hcontra
    rw [List.append_eq_nil, List.append_eq_nil, List.append_eq_nil, List.append_eq_nil] at hcontra
    exact hne hcontra.1.1.1.2
  have hb : (createIsValidErrors db p).isEmpty = false := by
    cases hc : (createIsValidErrors db p).isEmpty
    · rfl
    · exact absurd (by simpa [List.isEmpty_iff] using hc) hv
  unfold create_recipe
  simp [hb]

theorem create_recipe_duplicate_ingredient_rejected_witness :
    ¬ ((([⟨1, 100⟩, ⟨1, 50⟩] : List LineInput).map (fun it => it.id)).Nodup) ∧
      (∃ e, (create_recipe sampleDB 2 ⟨"R3", "i", "t3", 5, [1], [⟨1, 100⟩, ⟨1, 50⟩]⟩).1 =
          Except.error e) ∧
      (create_recipe sampleDB 2 ⟨"R3", "i", "t3", 5, [1], [⟨1, 100⟩, ⟨1, 50⟩]⟩).2 = sampleDB :=
  ⟨by decide,
    create_recipe_duplicate_ingredient_rejected sampleDB 2
      ⟨"R3", "i", "t3", 5, [1], [⟨1, 100⟩, ⟨1, 50⟩]⟩ (by decide)⟩

/-- A serializer update whose payload is missing ingredients or tags, or
carries an empty list for either, raises before touching lines or tags. -/
lemma serializer_update_empty_raises (db : DB) (r : Recipe) (p : UpdatePayload)
    (h : p.ingredients = none ∨ p.ingredients = some [] ∨
      p.tags = none ∨ p.tags = some []) :
    ∃ e, serializer_update db r p = Except.error e := by
  unfold serializer_update
  rcases h with h | h | h | h
  · rw [h]
    exact ⟨_, rfl⟩
  · rw [h]
    simp
  · cases hi : p.ingredients with
    | none => simp
    | some l =>
      by_cases hl : l.isEmpty
      · simp [hl]
      · simp [hl, h]
  · cases hi : p.ingredients with
    | none => simp
    | some l =>
      by_cases hl : l.isEmpty
      · simp [hl]
      · simp [hl, h]

/-- Claim C1: updating an existing recipe with a missing or empty
ingredient list, or a missing or empty tag list, fails with a validation
error while the stored state — scalar fields, tag set and ingredient
lines — is exactly the prior one: no partial write is committed. -/
theorem update_recipe_empty_payload_rejected (db : DB) (rid : Nat)
    (p : UpdatePayload) (r : Recipe)
    (hr : db.recipes.find? (fun x => x.id == rid) = some r)
    (h : p.ingredients = none ∨ p.ingredients = some [] ∨
      p.tags = none ∨ p.tags = some []) :
    (∃ e, (update_recipe db rid p).1 = Except.error e) ∧
      (update_recipe db rid p).2 = db := by
  unfold update_recipe
  rw [hr]
  by_cases he : (updateIsValidErrors db p).isEmpty
  · obtain ⟨e, hse⟩ := serializer_update_empty_raises db r p h
    simp [he, hse, runTransaction]
  · simp [he]

theorem update_recipe_empty_payload_rejected_witness :
    (sampleDB.recipes.find? (fun x => x.id == 1) =
        some ⟨1, 2, "R1", "img", "t1", 10, [1]⟩ ∧
      ((⟨some "new", none, none, none, some [1], none⟩ : UpdatePayload).ingredients = none ∨
        (⟨some "new", none, none, none, some [1], none⟩ : UpdatePayload).ingredients = some [] ∨
        (⟨some "new", none, none, none, some [1], none⟩ : UpdatePayload).tags = none ∨
        (⟨some "new", none, none, none, some [1], none⟩ : UpdatePayload).tags = some [])) ∧
      (∃ e, (update_recipe sampleDB 1 ⟨some "new", none, none, none, some [1], none⟩).1 =
          Except.error e) ∧
      (update_recipe sampleDB 1 ⟨some "new", none, none, none, some [1], none⟩).2 = sampleDB :=
  ⟨⟨by decide, Or.inl (by decide)⟩,
    update_recipe_empty_payload_rejected sampleDB 1
      ⟨some "new", none, none, none, some [1], none⟩
      ⟨1, 2, "R1", "img", "t1", 10, [1]⟩ (by decide) (Or.inl (by decide))⟩

/-- Claim C2 (code bug): on the claim's own example — user 1's cart holds
R1 (flour 200 g) and R2 (flour 300 g, egg 2 pcs) — the spec's aggregation
yields flour 500 g and egg 2 pcs, but the endpoint answers the
AttributeError server error instead of ever producing the aggregation:
the `user.shopping_cart` accessor of views.py does not exist under the
src models. -/
theorem download_shopping_cart_diverges_from_spec :
    cartRows sampleDB 1 ≠ [] ∧
    aggregateCart sampleDB 1 = [("flour", "g", 500), ("egg", "pcs", 2)] ∧
    buildShoppingList sampleDB 1 =
      Except.ok "- flour (g) - 500\n- egg (pcs) - 2" ∧
    download_shopping_cart sampleDB 1 =
      Except.error "AttributeError: User object has no attribute shopping_cart" :=
  ⟨by decide, by decide, by rfl, rfl⟩

end Foodgram
